import Mathlib

set_option linter.unusedVariables false

/-!
Shallow embedding of the autoscheduler2 repository (Python) in Lean 4.

Modelling conventions used throughout this file:
  * A process environment is a partial map from variable names to values
    (`Env`); `os.getenv(k, d)` becomes `Env.getD env k d`.
  * Python exceptions are values of `PyErr`; code that may raise returns
    `Except PyErr α`, and a `try/except` block becomes a `match` on that
    value.  Python attribute lookup on an object is modelled by a total
    function over the attribute name that yields `AttributeError` for
    names the class does not define.
  * External effects (Neo4j driver construction and queries, ChromaDB
    clients, subprocess calls) are modelled by oracle records (`World`,
    `DockerWorld`) supplying the outcome of each external call; the
    embedded functions are deterministic in the oracle.
  * Printing is modelled as returning the list of printed lines where a
    claim depends on it, and dropped where no claim mentions it.
-/

/-- A process environment: a partial map from variable names to values. -/
def Env : Type := String → Option String

/-- `os.getenv(key, default)`: the value bound to `key`, or `default` when unset. -/
def Env.getD (env : Env) (key : String) (default : String) : String :=
  (env key).getD default

/-- Python exception values, as far as this repository distinguishes them. -/
inductive PyErr where
  | valueError (msg : String)
  | attributeError (name : String)
  | exc (msg : String)
deriving DecidableEq, Repr

/-! ## ScopeManager (src/src/autoscheduler/core/scope_manager.py)

Each stub method is translated body-for-body: the printed lines and the
returned placeholder value.  Arguments that the Python bodies ignore are
kept in the signatures (and ignored) to match the source signatures. -/

/-- `ScopeManager._dispatch`: prints four lines and returns `False`. -/
def ScopeManager._dispatch : List String × Bool :=
  ([ "Natural language prompt interface not implemented yet.",
     "This will allow users to enter commands like:",
     "- \x27Add activities for excavation on floor 1\x27",
     "- \x27Delete all activities on the second floor\x27"], false)

/-- `ScopeManager._separate_prompt`: returns the pair of empty strings. -/
def ScopeManager._separate_prompt (prompt : String) : String × String :=
  ("", "")

/-- `ScopeManager._read_scope`: returns the empty string. -/
def ScopeManager._read_scope (prompt : String) (toolkit : List String) : String :=
  ""

/-- `ScopeManager._remove_scope`: returns `False`. -/
def ScopeManager._remove_scope (removal_prompt : String) : Bool :=
  false

/-- `ScopeManager._add_scope`: returns `False`. -/
def ScopeManager._add_scope (additions_prompt : String) : Bool :=
  false

/-- `ScopeManager._add_activity`: prints two lines and returns `False`. -/
def ScopeManager._add_activity (prompt : Option String) (activity : Option String) :
    List String × Bool :=
  ([ "Add activity functionality not implemented yet.",
     "This will allow adding activities with name, description, and duration."], false)

/-- `ScopeManager._add_relationship`: prints two lines and returns `False`. -/
def ScopeManager._add_relationship (prompt : Option String) (relationship : Option String) :
    List String × Bool :=
  ([ "Add relationship functionality not implemented yet.",
     "This will allow adding FS, SS, FF, SF relationships between activities."], false)

/-- `ScopeManager._delete_activity`: prints two lines and returns `False`. -/
def ScopeManager._delete_activity (prompt : Option String) (activity_id : Option String) :
    List String × Bool :=
  ([ "Delete activity functionality not implemented yet.",
     "This will allow removing activities by ID or description."], false)

/-- `ScopeManager._dissolve_activity`: prints two lines and returns `False`. -/
def ScopeManager._dissolve_activity (prompt : Option String) (activity_id : Option String) :
    List String × Bool :=
  ([ "Dissolve activity functionality not implemented yet.",
     "This will remove an activity while preserving its relationships."], false)

/-- `ScopeManager._delete_relationship`: prints two lines and returns `False`. -/
def ScopeManager._delete_relationship (prompt : Option String) (relationship : Option String) :
    List String × Bool :=
  ([ "Delete relationship functionality not implemented yet.",
     "This will allow removing relationships by ID or description."], false)

/-- The method names defined by `class ScopeManager` in
`scope_manager.py` (besides `__init__`), in source order. -/
def ScopeManager.methodNames : List String :=
  [ "_dispatch", "_separate_prompt", "_read_scope", "_remove_scope", "_add_scope",
    "_add_activity", "_add_relationship", "_delete_activity", "_dissolve_activity",
    "_delete_relationship"]

/-- Python attribute lookup plus call, `self.scope_manager.<name>()`, for the
zero-argument calls made by `CLI.run` (optional parameters default to `None`).
A name not defined by the class raises `AttributeError`; a defined stub runs
and yields its boolean return value. -/
def ScopeManager.getattrCall (name : String) : Except PyErr Bool :=
  if name = "_dispatch" then Except.ok (ScopeManager._dispatch).2
  else if name = "_add_activity" then Except.ok (ScopeManager._add_activity none none).2
  else if name = "_add_relationship" then Except.ok (ScopeManager._add_relationship none none).2
  else if name = "_delete_activity" then Except.ok (ScopeManager._delete_activity none none).2
  else if name = "_dissolve_activity" then Except.ok (ScopeManager._dissolve_activity none none).2
  else if name = "_delete_relationship" then Except.ok (ScopeManager._delete_relationship none none).2
  else Except.error (PyErr.attributeError name)

/-! ## CLI (src/src/autoscheduler/cli/__init__.py)

One iteration of the `while True` loop in `CLI.run`, as a function of the
stripped user input.  The outcome records which of the source's branches
ran and, for branches that invoke a `ScopeManager` method, whether the call
returned (so that `_show_result` ran) or raised. -/

/-- Outcome of one menu selection inside `CLI.run`. -/
inductive StepOutcome where
  /-- a `ScopeManager` method returned `success`, and `_show_result success op` ran -/
  | result (success : Bool)
  /-- the attempted `ScopeManager` method call raised, so `_show_result` never ran -/
  | raised (e : PyErr)
  /-- the branch only printed (choice `"7"`, Run Schedule) -/
  | printOnly
  /-- the loop `break` (choice `"8"`, Quit) -/
  | quit
  /-- the invalid-choice branch -/
  | invalid
deriving DecidableEq, Repr

/-- `true` exactly on outcomes in which a `ScopeManager` stub method was
called and returned `False` (so `_show_result` reported failure). -/
def StepOutcome.isFalseStubCall : StepOutcome → Bool
  | StepOutcome.result success => !success
  | _ => false

/-- The `if choice == "1" ... elif ... else` chain of `CLI.run`, with the
attribute names exactly as they appear at the call sites in the source. -/
def CLI.handleChoice (choice : String) : StepOutcome :=
  if choice = "1" then
    match ScopeManager.getattrCall "_add_activity" with
    | Except.ok success => StepOutcome.result success
    | Except.error e => StepOutcome.raised e
  else if choice = "2" then
    match ScopeManager.getattrCall "_delete_activity" with
    | Except.ok success => StepOutcome.result success
    | Except.error e => StepOutcome.raised e
  else if choice = "3" then
    match ScopeManager.getattrCall "_add_relationship" with
    | Except.ok success => StepOutcome.result success
    | Except.error e => StepOutcome.raised e
  else if choice = "4" then
    match ScopeManager.getattrCall "_delete_relationship" with
    | Except.ok success => StepOutcome.result success
    | Except.error e => StepOutcome.raised e
  else if choice = "5" then
    match ScopeManager.getattrCall "_dissolve_relationship" with
    | Except.ok success => StepOutcome.result success
    | Except.error e => StepOutcome.raised e
  else if choice = "6" then
    match ScopeManager.getattrCall "_dispatch" with
    | Except.ok success => StepOutcome.result success
    | Except.error e => StepOutcome.raised e
  else if choice = "7" then StepOutcome.printOnly
  else if choice = "8" then StepOutcome.quit
  else StepOutcome.invalid

/-- The eight menu options displayed by `CLI._display_menu`. -/
def CLI.menuChoices : List String :=
  [ "1", "2", "3", "4", "5", "6", "7", "8"]

/-! ## Schedule (src/src/autoscheduler/core/schedule.py)

External database behaviour is supplied by a `World` oracle: one field per
external call the source makes, in source order. -/

/-- A Neo4j driver handle, as constructed by
`GraphDatabase.driver(uri, auth=(username, password))`. -/
structure Neo4jDriver where
  uri : String
  username : String
  password : String
deriving DecidableEq, Repr

/-- A ChromaDB client: the HTTP client or the persistent on-disk client. -/
inductive ChromaClient where
  | httpClient (host : String) (port : Int)
  | persistentClient (path : String)
deriving DecidableEq, Repr

/-- A ChromaDB collection as produced by `get_or_create_collection`. -/
structure Collection where
  name : String
  metadataDescription : String
deriving DecidableEq, Repr

/-- Decidable equality for `Except`, needed to evaluate the concrete
oracle records in witnesses by `decide`. -/
instance {ε α : Type} [DecidableEq ε] [DecidableEq α] : DecidableEq (Except ε α) := fun a b =>
  match a, b with
  | Except.ok x, Except.ok y =>
    if h : x = y then isTrue (by rw [h]) else isFalse (by intro hh; cases hh; exact h rfl)
  | Except.ok x, Except.error y => isFalse (by intro hh; cases hh)
  | Except.error x, Except.ok y => isFalse (by intro hh; cases hh)
  | Except.error x, Except.error y =>
    if h : x = y then isTrue (by rw [h]) else isFalse (by intro hh; cases hh; exact h rfl)

/-- Outcomes of the external calls `Schedule.__init__` and the two
connectivity properties can make. -/
structure World where
  /-- whether `GraphDatabase.driver(...)` construction succeeds (it can raise) -/
  neo4jDriverOk : Bool
  /-- outcome of the test query `session.run("RETURN 1 as test").single()["test"]` -/
  neo4jTest : Except PyErr Int
  /-- whether `chromadb.HttpClient(...)` construction plus `client.heartbeat()` succeeds -/
  chromaHttpOk : Bool
  /-- whether `chromadb.PersistentClient(path=...)` construction succeeds -/
  chromaPersistentOk : Bool
  /-- whether `chroma_client.get_or_create_collection(...)` succeeds -/
  collectionOk : Bool
  /-- outcome of the re-run `session.run("RETURN 1").single()` in `is_neo4j_connected` -/
  neo4jLiveOk : Bool
  /-- outcome of the `chroma_client.heartbeat()` in `is_chromadb_connected` -/
  chromaHeartbeatOk : Bool
deriving DecidableEq, Repr

/-- ASCII whitespace, as Python `str.strip()` removes it. -/
def pyIsSpace (c : Char) : Bool :=
  c = ' ' || c = '\t' || c = '\n' || c = '\x0d' || c = '\x0b' || c = '\x0c'

/-- Python `s.strip()`: drop leading and trailing whitespace. -/
def pyStrip (s : String) : String :=
  String.mk (((s.data.dropWhile pyIsSpace).reverse.dropWhile pyIsSpace).reverse)

/-- Split a character list at every occurrence of `sep` (Python
`str.split(sep)` semantics: `''.split(sep) == ['']`). -/
def splitOnChar (sep : Char) : List Char → List (List Char)
  | [] => [[]]
  | c :: cs =>
    if c = sep then [] :: splitOnChar sep cs
    else
      match splitOnChar sep cs with
      | [] => [[c]]
      | h :: t => (c :: h) :: t

/-- Python `s.split(sep)` for a one-character separator. -/
def pySplit (s : String) (sep : Char) : List String :=
  (splitOnChar sep s.data).map String.mk

/-- Accumulate decimal digits; `none` as soon as a non-digit appears. -/
def digitsAux : List Char → Nat → Option Nat
  | [], acc => some acc
  | c :: cs, acc =>
    if c.isDigit then digitsAux cs (acc * 10 + (c.toNat - 48)) else none

/-- A nonempty all-digit character list as a natural number. -/
def digitsToNat : List Char → Option Nat
  | [] => none
  | c :: cs => digitsAux (c :: cs) 0

/-- Parse an optionally signed decimal literal. -/
def pyIntCore : List Char → Option Int
  | [] => none
  | c :: cs =>
    if c = '-' then (digitsToNat cs).map (fun n => -(n : Int))
    else if c = '+' then (digitsToNat cs).map (fun n => (n : Int))
    else (digitsToNat (c :: cs)).map (fun n => (n : Int))

/-- Python `int(s)` on a string: the parsed integer, or `ValueError`.
Python strips surrounding whitespace and accepts an optional sign before
the digits. -/
def pyInt (s : String) : Except PyErr Int :=
  match pyIntCore (pyStrip s).data with
  | some n => Except.ok n
  | none => Except.error (PyErr.valueError ("invalid literal for int: " ++ s))

/-- `Schedule._initialize_neo4j`: reads `NEO4J_URI`/`NEO4J_USERNAME`/
`NEO4J_PASSWORD` (defaults `bolt://localhost:7687`, `neo4j`, `password`),
builds the driver, runs the test query, and returns the driver only when
the test value is `1`; the surrounding `try/except` turns any exception
into the fall-through `return None`. -/
def Schedule._initialize_neo4j (env : Env) (w : World) : Option Neo4jDriver :=
  let attempt : Except PyErr (Option Neo4jDriver) := do
    let uri := Env.getD env "NEO4J_URI" "bolt://localhost:7687"
    let username := Env.getD env "NEO4J_USERNAME" "neo4j"
    let password := Env.getD env "NEO4J_PASSWORD" "password"
    let driver ← if w.neo4jDriverOk then Except.ok (Neo4jDriver.mk uri username password)
      else Except.error (PyErr.exc "driver construction failed")
    let test_value ← w.neo4jTest
    if test_value = 1 then Except.ok (some driver)
    else Except.ok none
  match attempt with
  | Except.ok r => r
  | Except.error _ => none

/-- `Schedule._initialize_chromadb`: reads `CHROMADB_HOST`/`CHROMADB_PORT`
(defaults `localhost`, `"8000"`), parses the port with `int(...)` (outside
the inner `try`), attempts the HTTP client plus heartbeat, falls back to a
`PersistentClient` at `CHROMADB_DATA_PATH` (default `./chroma_data`), and
lets the outer `try/except` turn any remaining exception into `None`. -/
def Schedule._initialize_chromadb (env : Env) (w : World) : Option ChromaClient :=
  let attempt : Except PyErr (Option ChromaClient) := do
    let chroma_host := Env.getD env "CHROMADB_HOST" "localhost"
    let chroma_port ← pyInt (Env.getD env "CHROMADB_PORT" "8000")
    if w.chromaHttpOk then
      Except.ok (some (ChromaClient.httpClient chroma_host chroma_port))
    else
      let data_path := Env.getD env "CHROMADB_DATA_PATH" "./chroma_data"
      if w.chromaPersistentOk then Except.ok (some (ChromaClient.persistentClient data_path))
      else Except.error (PyErr.exc "persistent client construction failed")
  match attempt with
  | Except.ok r => r
  | Except.error _ => none

/-- `Schedule._get_or_create_collection`: `None` when there is no chroma
client, otherwise the collection named `autoscheduler_<name>` (or `None`
when the creation call raises, caught inside the method). -/
def Schedule._get_or_create_collection (chroma_client : Option ChromaClient) (w : World)
    (collection_name : String) : Option Collection :=
  match chroma_client with
  | none => none
  | some _ =>
    if w.collectionOk then
      some (Collection.mk ("autoscheduler_" ++ collection_name)
        ("Autoscheduler " ++ collection_name ++ " embeddings"))
    else none

/-- The NetworkX `DiGraph`; only its identity matters to the claims, so it
is modelled as node and edge lists. -/
structure DiGraph where
  nodes : List String
  edges : List (String × String)
deriving DecidableEq, Repr

/-- `nx.DiGraph()`. -/
def DiGraph.empty : DiGraph := DiGraph.mk [] []

/-- The fields `Schedule.__init__` assigns on `self`. -/
structure ScheduleState where
  neo4j_db : Option Neo4jDriver
  chroma_client : Option ChromaClient
  graph : DiGraph
  activities_embeddings : Option Collection
  relationships_embeddings : Option Collection
deriving DecidableEq, Repr

/-- `Schedule.__init__`: initializes the two database clients, the empty
`DiGraph`, and the two embeddings collections, in source order.  Every
fallible step is wrapped in `try/except` inside the helpers, so the
constructor itself is total. -/
def Schedule.init (env : Env) (w : World) : ScheduleState :=
  let neo4j_db := Schedule._initialize_neo4j env w
  let chroma_client := Schedule._initialize_chromadb env w
  let graph := DiGraph.empty
  let activities_embeddings := Schedule._get_or_create_collection chroma_client w "activities"
  let relationships_embeddings := Schedule._get_or_create_collection chroma_client w "relationships"
  ScheduleState.mk neo4j_db chroma_client graph activities_embeddings relationships_embeddings

/-- Property `Schedule.is_neo4j_connected`: `False` when there is no
driver; otherwise the result of re-running `RETURN 1`, with any exception
caught and turned into `False`. -/
def Schedule.is_neo4j_connected (self : ScheduleState) (w : World) : Bool :=
  match self.neo4j_db with
  | none => false
  | some _ => w.neo4jLiveOk

/-- Property `Schedule.is_chromadb_connected`: `False` when there is no
client; otherwise the result of `heartbeat()`, with any exception caught
and turned into `False`. -/
def Schedule.is_chromadb_connected (self : ScheduleState) (w : World) : Bool :=
  match self.chroma_client with
  | none => false
  | some _ => w.chromaHeartbeatOk

/-! The stub mutation and query methods of `Schedule`.  Each body is a
`print` plus a constant return; none of them assigns to `self`, which the
embedding renders by returning `self` unchanged alongside the printed
lines and the return value. -/

/-- `Schedule.add_activity`: prints and returns `False`; `self` untouched. -/
def Schedule.add_activity (self : ScheduleState) (activity : String) :
    (List String × Bool) × ScheduleState :=
  (([ "Adding activity to schedule: " ++ activity], false), self)

/-- `Schedule.remove_activity`: prints and returns `False`; `self` untouched. -/
def Schedule.remove_activity (self : ScheduleState) (activity_id : String) :
    (List String × Bool) × ScheduleState :=
  (([ "Removing activity from schedule: " ++ activity_id], false), self)

/-- `Schedule.add_relationship`: prints and returns `False`; `self` untouched. -/
def Schedule.add_relationship (self : ScheduleState) (relationship : String) :
    (List String × Bool) × ScheduleState :=
  (([ "Adding relationship to schedule: " ++ relationship], false), self)

/-- `Schedule.remove_relationship`: prints and returns `False`; `self` untouched. -/
def Schedule.remove_relationship (self : ScheduleState) (relationship_id : String) :
    (List String × Bool) × ScheduleState :=
  (([ "Removing relationship from schedule: " ++ relationship_id], false), self)

/-- `Schedule.update_graph`: prints and returns `False`; `self` untouched. -/
def Schedule.update_graph (self : ScheduleState) :
    (List String × Bool) × ScheduleState :=
  (([ "Updating NetworkX graph from Neo4j database..."], false), self)

/-- `Schedule.compute_critical_path`: prints and returns the empty list. -/
def Schedule.compute_critical_path (self : ScheduleState) : List String × List String :=
  ([ "Computing critical path..."], [])

/-- `Schedule.get_activities`: returns the empty list (no print). -/
def Schedule.get_activities (self : ScheduleState) : List String :=
  []

/-- `Schedule.get_relationships`: returns the empty list (no print). -/
def Schedule.get_relationships (self : ScheduleState) : List String :=
  []

/-- `Schedule.semantic_search_activities`: prints and returns the empty list. -/
def Schedule.semantic_search_activities (self : ScheduleState) (query : String) :
    List String × List String :=
  ([ "Searching activities for: " ++ query], [])

/-- `Schedule.semantic_search_relationships`: prints and returns the empty list. -/
def Schedule.semantic_search_relationships (self : ScheduleState) (query : String) :
    List String × List String :=
  ([ "Searching relationships for: " ++ query], [])

/-- Whether an `Except` value is a success (Python: no exception was raised). -/
def ExceptOk {ε α : Type} : Except ε α → Bool
  | Except.ok _ => true
  | Except.error _ => false

/-! ## LLMClient (src/src/autoscheduler/llm/llm_client.py) -/

/-- The configuration fields `LLMClient.__init__` derives from the
environment (the `AsyncOpenAI` client itself is built from `api_key`). -/
structure LLMClientState where
  api_key : String
  default_model : String
deriving DecidableEq, Repr

/-- `LLMClient.__init__`: reads `OPENAI_API_KEY` and raises `ValueError`
when it is falsy (unset, i.e. `None`, or the empty string); otherwise
stores the key and `OPENAI_MODEL` (default `gpt-4o-mini`). -/
def LLMClient.init (env : Env) : Except PyErr LLMClientState :=
  let api_key := env "OPENAI_API_KEY"
  match api_key with
  | none => Except.error (PyErr.valueError "OPENAI_API_KEY not found in environment variables")
  | some k =>
    if k = "" then
      Except.error (PyErr.valueError "OPENAI_API_KEY not found in environment variables")
    else
      Except.ok (LLMClientState.mk k (Env.getD env "OPENAI_MODEL" "gpt-4o-mini"))

/-! ## Docker bootstrap (src/main.py, check_docker_containers)

Each `subprocess.run` the function makes is an oracle field: the pair of
the process return code and its stdout (or an exception, e.g.
`FileNotFoundError` when the binary is absent). -/

/-- Oracle for the subprocess calls made by `check_docker_containers`. -/
structure DockerWorld where
  /-- `docker-compose --version`: its return code -/
  composeVersion : Except PyErr Int
  /-- `docker-compose ps --services --filter status=running`: return code and stdout -/
  psOut : Except PyErr (Int × String)
  /-- `docker-compose up -d <services>`: its return code -/
  upResult : Except PyErr Int
  /-- the `docker inspect` health probe, indexed by the `elapsed` counter at the probe -/
  healthChecks : Nat → Except PyErr (Int × String)

/-- How the polling loop in `check_docker_containers` exited. -/
inductive LoopExit where
  /-- `return True` inside the loop: the container reported healthy at this `elapsed` -/
  | ready (elapsed : Nat)
  /-- the loop ran out: the warning is printed and `True` is returned anyway -/
  | timedOut
deriving DecidableEq, Repr

/-- The successive values of the `elapsed` counter at which the
`while elapsed < max_wait` loop probes container health: `elapsed` starts
at 10 (after `time.sleep(10)`), each iteration sleeps 5 and advances
`elapsed` by 5 before probing, and the loop runs while `elapsed < 60`, so
the probes happen at 15, 20, ..., 60. -/
def pollSchedule : List Nat :=
  (List.range ((60 - 10) / 5)).map (fun i => 10 + 5 * (i + 1))

/-- The body of the polling loop, run once per remaining probe point:
probe `docker inspect`, return `True` ("Services are ready!") as soon as
the probe yields return code 0 with stripped stdout `healthy`, otherwise
keep waiting; when the probe points run out, the loop exits and the
caller returns `True` with a warning. -/
def pollFrom (w : DockerWorld) : List Nat → Except PyErr LoopExit
  | [] => Except.ok LoopExit.timedOut
  | e :: rest =>
    match w.healthChecks e with
    | Except.error err => Except.error err
    | Except.ok health_check =>
      if health_check.1 = 0 ∧ pyStrip health_check.2 = "healthy" then
        Except.ok (LoopExit.ready e)
      else pollFrom w rest

/-- The whole polling phase of `check_docker_containers`. -/
def pollLoop (w : DockerWorld) : Except PyErr LoopExit :=
  pollFrom w pollSchedule

/-- Whether the health probe at `elapsed` reports a healthy container
(return code 0 and stripped stdout `healthy`). -/
def healthyAtB (w : DockerWorld) (elapsed : Nat) : Bool :=
  match w.healthChecks elapsed with
  | Except.ok health_check =>
    decide (health_check.1 = 0) && decide (pyStrip health_check.2 = "healthy")
  | Except.error _ => false

/-- `result.stdout.strip().split('\n') if result.stdout.strip() else []`. -/
def runningServicesOf (stdout : String) : List String :=
  if pyStrip stdout = "" then [] else pySplit (pyStrip stdout) '\n'

/-- `required_services = ['neo4j', 'chromadb']`. -/
def requiredServices : List String := [ "neo4j", "chromadb"]

/-- `[s for s in required_services if s not in running_services]`. -/
def servicesToStart (running_services : List String) : List String :=
  requiredServices.filter (fun s => !(running_services.contains s))

/-- The distinct `return` sites of `check_docker_containers`, with the data
each one is reached with. -/
inductive DockerOutcome where
  /-- `return False` after the `docker-compose --version` check -/
  | composeMissing
  /-- `return True`: all required services were already running -/
  | alreadyRunning
  /-- `return False`: `docker-compose up -d` returned nonzero -/
  | startFailed (services_to_start : List String)
  /-- `return True` inside the polling loop ("Services are ready!") -/
  | ready (services_to_start : List String) (elapsed : Nat)
  /-- `return True` after the polling loop, with the may-not-be-ready warning -/
  | timedOut (services_to_start : List String)
  /-- `return False` in the outer `except Exception` handler -/
  | exceptionCaught
deriving DecidableEq, Repr

/-- `true` exactly on the `composeMissing` outcome. -/
def DockerOutcome.isComposeMissing : DockerOutcome → Bool
  | DockerOutcome.composeMissing => true
  | _ => false

/-- `true` exactly on `startFailed` outcomes. -/
def DockerOutcome.isStartFailed : DockerOutcome → Bool
  | DockerOutcome.startFailed _ => true
  | _ => false

/-- The body of `check_docker_containers` inside its outer `try`, before
the `except Exception` handler. -/
def checkDockerBody (w : DockerWorld) : Except PyErr DockerOutcome := do
  let vrc ← w.composeVersion
  if vrc ≠ 0 then Except.ok DockerOutcome.composeMissing
  else do
    let ps ← w.psOut
    let running_services := runningServicesOf ps.2
    let services_to_start := servicesToStart running_services
    if services_to_start ≠ [] then do
      let urc ← w.upResult
      if urc ≠ 0 then Except.ok (DockerOutcome.startFailed services_to_start)
      else do
        let door ← pollLoop w
        match door with
        | LoopExit.ready e => Except.ok (DockerOutcome.ready services_to_start e)
        | LoopExit.timedOut => Except.ok (DockerOutcome.timedOut services_to_start)
    else Except.ok DockerOutcome.alreadyRunning

/-- Which return site `check_docker_containers` reaches: the body, with the
outer `except Exception` handler folded in. -/
def checkDockerOutcome (w : DockerWorld) : DockerOutcome :=
  match checkDockerBody w with
  | Except.ok outcome => outcome
  | Except.error _ => DockerOutcome.exceptionCaught

/-- `check_docker_containers` (src/main.py): the boolean it returns. -/
def check_docker_containers (w : DockerWorld) : Bool :=
  match checkDockerOutcome w with
  | DockerOutcome.composeMissing => false
  | DockerOutcome.startFailed _ => false
  | DockerOutcome.exceptionCaught => false
  | DockerOutcome.alreadyRunning => true
  | DockerOutcome.ready _ _ => true
  | DockerOutcome.timedOut _ => true

/-! ## Concrete inputs used by witnesses and counterexamples -/

/-- An empty environment: no variable set. -/
def envNone : Env := fun _ => none

/-- A world in which every external database call fails. -/
def wAllFail : World :=
  World.mk false (Except.error (PyErr.exc "connection refused")) false false false false false

/-- An environment setting `CHROMADB_PORT` to a non-integer value. -/
def envBadPort : Env := fun k => if k = "CHROMADB_PORT" then some "abc" else none

/-- A world in which both ChromaDB connection attempts would succeed. -/
def wChromaUp : World := World.mk false (Except.error (PyErr.exc "neo4j down")) true true true false false

/-- An environment for the C6 witness: nothing set, so every default applies. -/
def envDefaults : Env := fun _ => none

/-- A world in which the ChromaDB HTTP attempt fails and the persistent
fallback succeeds. -/
def wChromaFallback : World := World.mk true (Except.ok 1) false true true true true

/-- A docker oracle in which `docker-compose ps` raises (for example the
binary vanished between the two calls), while everything else would work. -/
def wDockerPsRaises : DockerWorld :=
  DockerWorld.mk (Except.ok 0) (Except.error (PyErr.exc "ps failed")) (Except.ok 0)
    (fun _ => Except.ok (0, "healthy"))

/-- A docker oracle in which `docker inspect` raises on every probe. -/
def wDockerInspectRaises : DockerWorld :=
  DockerWorld.mk (Except.ok 0) (Except.ok (0, "")) (Except.ok 0)
    (fun _ => Except.error (PyErr.exc "docker binary not found"))

/-- A docker oracle in which no service is running, startup succeeds, and
the health probe first reports `healthy` at `elapsed = 20`. -/
def wDockerHealthyAt20 : DockerWorld :=
  DockerWorld.mk (Except.ok 0) (Except.ok (0, "")) (Except.ok 0)
    (fun e => Except.ok (0, if e = 20 then "healthy" else "starting"))

/-- An environment with an API key set and no model override. -/
def envApiKey : Env := fun k => if k = "OPENAI_API_KEY" then some "sk-test" else none

/-! ## Claim theorems -/

/-- Claim C1 (code bug in the source): menu selections 1, 2, 3, 4 and 6 do
call `ScopeManager` stubs that return `False`, after which `_show_result`
reports failure; but selection 5 (Dissolve Relationship) calls
`scope_manager._dissolve_relationship()`, a method `ScopeManager` does not
define, so it raises `AttributeError` instead of returning `False`. -/
theorem C1_cli_dispatch_choice5_attribute_error :
    CLI.handleChoice "1" = StepOutcome.result false ∧
    CLI.handleChoice "2" = StepOutcome.result false ∧
    CLI.handleChoice "3" = StepOutcome.result false ∧
    CLI.handleChoice "4" = StepOutcome.result false ∧
    CLI.handleChoice "6" = StepOutcome.result false ∧
    CLI.handleChoice "5" = StepOutcome.raised (PyErr.attributeError "_dissolve_relationship") ∧
    ScopeManager.methodNames.contains "_dissolve_relationship" = false := by
  decide

/-- Claim C2, counterexample: it is not the case that exactly seven of the
eight menu options call stub methods that return `False` after printing. -/
theorem C2_counterexample_not_seven_stub_options :
    ¬ ((CLI.menuChoices.filter (fun c => (CLI.handleChoice c).isFalseStubCall)).length = 7) := by
  decide

/-- Claim C2 as amended: exactly five of the eight menu options (1, 2, 3,
4 and 6) call `ScopeManager` stub methods that return `False` after
printing; option 7 prints its not-implemented message inline without
calling any stub, option 5 raises `AttributeError`, and option 8 quits. -/
theorem C2_five_stub_options_of_eight :
    (CLI.menuChoices.filter (fun c => (CLI.handleChoice c).isFalseStubCall)) =
      [ "1", "2", "3", "4", "6"] ∧
    CLI.handleChoice "7" = StepOutcome.printOnly ∧
    CLI.handleChoice "5" = StepOutcome.raised (PyErr.attributeError "_dissolve_relationship") ∧
    CLI.handleChoice "8" = StepOutcome.quit := by
  decide

/-- Claim C3: every listed stub mutation method returns `False` for every
input, after printing at least one line (`ScopeManager._dispatch`,
`_add_activity`, `_add_relationship`, `_delete_activity`,
`_dissolve_activity`, `_delete_relationship`, and `Schedule.add_activity`,
`remove_activity`, `add_relationship`, `remove_relationship`,
`update_graph`). -/
theorem C3_stub_mutation_methods_return_false (prompt activity relationship activity_id : Option String)
    (self : ScheduleState) (act aid rel rid : String) :
    (ScopeManager._dispatch).2 = false ∧
    (ScopeManager._add_activity prompt activity).2 = false ∧
    (ScopeManager._add_relationship prompt relationship).2 = false ∧
    (ScopeManager._delete_activity prompt activity_id).2 = false ∧
    (ScopeManager._dissolve_activity prompt activity_id).2 = false ∧
    (ScopeManager._delete_relationship prompt relationship).2 = false ∧
    (Schedule.add_activity self act).1.2 = false ∧
    (Schedule.remove_activity self aid).1.2 = false ∧
    (Schedule.add_relationship self rel).1.2 = false ∧
    (Schedule.remove_relationship self rid).1.2 = false ∧
    (Schedule.update_graph self).1.2 = false ∧
    (ScopeManager._dispatch).1 ≠ [] ∧
    (ScopeManager._add_activity prompt activity).1 ≠ [] ∧
    (ScopeManager._add_relationship prompt relationship).1 ≠ [] ∧
    (ScopeManager._delete_activity prompt activity_id).1 ≠ [] ∧
    (ScopeManager._dissolve_activity prompt activity_id).1 ≠ [] ∧
    (ScopeManager._delete_relationship prompt relationship).1 ≠ [] ∧
    (Schedule.add_activity self act).1.1 ≠ [] ∧
    (Schedule.remove_activity self aid).1.1 ≠ [] ∧
    (Schedule.add_relationship self rel).1.1 ≠ [] ∧
    (Schedule.remove_relationship self rid).1.1 ≠ [] ∧
    (Schedule.update_graph self).1.1 ≠ [] := by
  simp [ScopeManager._dispatch, ScopeManager._add_activity, ScopeManager._add_relationship,
    ScopeManager._delete_activity, ScopeManager._dissolve_activity,
    ScopeManager._delete_relationship, Schedule.add_activity, Schedule.remove_activity,
    Schedule.add_relationship, Schedule.remove_relationship, Schedule.update_graph]

/-- Claim C4: for every schedule state and query string, the query methods
`compute_critical_path`, `get_activities`, `get_relationships`,
`semantic_search_activities` and `semantic_search_relationships` each
return the empty list. -/
theorem C4_query_methods_return_empty (self : ScheduleState) (query : String) :
    (Schedule.compute_critical_path self).2 = [] ∧
    Schedule.get_activities self = [] ∧
    Schedule.get_relationships self = [] ∧
    (Schedule.semantic_search_activities self query).2 = [] ∧
    (Schedule.semantic_search_relationships self query).2 = [] :=
  ⟨rfl, rfl, rfl, rfl, rfl⟩

/-- Claim C5: `add_activity`, `remove_activity`, `add_relationship`,
`remove_relationship` and `update_graph` leave the whole `Schedule` state
(all five fields: `neo4j_db`, `chroma_client`, `graph`,
`activities_embeddings`, `relationships_embeddings`) unchanged; the
methods take no database oracle at all, so no database write occurs. -/
theorem C5_mutation_methods_preserve_state (self : ScheduleState)
    (act aid rel rid : String) :
    (Schedule.add_activity self act).2 = self ∧
    (Schedule.remove_activity self aid).2 = self ∧
    (Schedule.add_relationship self rel).2 = self ∧
    (Schedule.remove_relationship self rid).2 = self ∧
    (Schedule.update_graph self).2 = self ∧
    ((Schedule.add_activity self act).2.neo4j_db = self.neo4j_db ∧
      (Schedule.add_activity self act).2.chroma_client = self.chroma_client ∧
      (Schedule.add_activity self act).2.graph = self.graph ∧
      (Schedule.add_activity self act).2.activities_embeddings = self.activities_embeddings ∧
      (Schedule.add_activity self act).2.relationships_embeddings = self.relationships_embeddings) :=
  ⟨rfl, rfl, rfl, rfl, rfl, rfl, rfl, rfl, rfl, rfl⟩

/-- Claim C8: `LLMClient.__init__` raises `ValueError` if and only if
`OPENAI_API_KEY` is unset or empty; when a key is present, construction
succeeds, the key is stored, and the model defaults to `OPENAI_MODEL` or
`gpt-4o-mini`. -/
theorem C8_llm_client_requires_api_key (env : Env) :
    (∀ e : PyErr, LLMClient.init env = Except.error e →
      e = PyErr.valueError "OPENAI_API_KEY not found in environment variables") ∧
    (ExceptOk (LLMClient.init env) = false ↔
      (env "OPENAI_API_KEY" = none ∨ env "OPENAI_API_KEY" = some "")) ∧
    (∀ st : LLMClientState, LLMClient.init env = Except.ok st →
      st.default_model = Env.getD env "OPENAI_MODEL" "gpt-4o-mini" ∧
      env "OPENAI_API_KEY" = some st.api_key) := by
  cases henv : env "OPENAI_API_KEY" with
  | none =>
    refine ⟨?_, ?_, ?_⟩
    · intro e he
      simp [LLMClient.init, henv] at he
      exact he.symm
    · simp [LLMClient.init, henv, ExceptOk]
    · intro st hst
      simp [LLMClient.init, henv] at hst
  | some k =>
    by_cases hk : k = ""
    · subst hk
      refine ⟨?_, ?_, ?_⟩
      · intro e he
        simp [LLMClient.init, henv] at he
        exact he.symm
      · simp [LLMClient.init, henv, ExceptOk]
      · intro st hst
        simp [LLMClient.init, henv] at hst
    · refine ⟨?_, ?_, ?_⟩
      · intro e he
        simp [LLMClient.init, henv, hk] at he
      · simp [LLMClient.init, henv, hk, ExceptOk]
      · intro st hst
        simp [LLMClient.init, henv, hk] at hst
        rw [← hst]
        exact ⟨rfl, rfl⟩

/-- Witness for C8 at a concrete environment that sets only the key. -/
theorem C8_llm_client_requires_api_key_witness :
    (LLMClientState.mk "sk-test" "gpt-4o-mini").default_model =
      Env.getD envApiKey "OPENAI_MODEL" "gpt-4o-mini" ∧
    envApiKey "OPENAI_API_KEY" = some (LLMClientState.mk "sk-test" "gpt-4o-mini").api_key :=
  (C8_llm_client_requires_api_key envApiKey).2.2 (LLMClientState.mk "sk-test" "gpt-4o-mini")
    (by decide)

/-- Claim C9: every exception raised inside the body of
`check_docker_containers` is caught by the outer handler and converted to
the return value `False`, so the function returns a boolean on every
path. -/
theorem C9_check_docker_never_raises (w : DockerWorld) (e : PyErr)
    (h : checkDockerBody w = Except.error e) :
    check_docker_containers w = false := by
  simp [check_docker_containers, checkDockerOutcome, h]

/-- Witness for C9 at a concrete oracle whose `ps` call raises. -/
theorem C9_check_docker_never_raises_witness :
    check_docker_containers wDockerPsRaises = false :=
  C9_check_docker_never_raises wDockerPsRaises (PyErr.exc "ps failed") (by decide)

/-- Claim C10: `Schedule` construction completes even when both databases
are unreachable (yielding the fully disconnected state), whenever
`chroma_client` is `None` both embeddings collections are `None`, and the
two connectivity properties return `False` (rather than raising) whenever
the corresponding client is `None` or the underlying probe fails. -/
theorem C10_schedule_init_disconnected_invariants (env : Env) (w : World) :
    ((Schedule.init env w).chroma_client = none →
      (Schedule.init env w).activities_embeddings = none ∧
      (Schedule.init env w).relationships_embeddings = none) ∧
    ((Schedule.init env w).neo4j_db = none →
      Schedule.is_neo4j_connected (Schedule.init env w) w = false) ∧
    ((Schedule.init env w).chroma_client = none →
      Schedule.is_chromadb_connected (Schedule.init env w) w = false) ∧
    (w.neo4jLiveOk = false → Schedule.is_neo4j_connected (Schedule.init env w) w = false) ∧
    (w.chromaHeartbeatOk = false → Schedule.is_chromadb_connected (Schedule.init env w) w = false) ∧
    (Schedule._initialize_neo4j env w = none ∧ Schedule._initialize_chromadb env w = none →
      Schedule.init env w = ScheduleState.mk none none DiGraph.empty none none) := by
  refine ⟨?_, ?_, ?_, ?_, ?_, ?_⟩
  · intro h
    simp only [Schedule.init] at h ⊢
    rw [h]
    exact ⟨rfl, rfl⟩
  · intro h
    simp only [Schedule.init] at h ⊢
    simp [Schedule.is_neo4j_connected, Schedule.init, h]
  · intro h
    simp only [Schedule.init] at h ⊢
    simp [Schedule.is_chromadb_connected, Schedule.init, h]
  · intro h
    cases hdb : (Schedule.init env w).neo4j_db <;>
      simp [Schedule.is_neo4j_connected, hdb, h]
  · intro h
    cases hcl : (Schedule.init env w).chroma_client <;>
      simp [Schedule.is_chromadb_connected, hcl, h]
  · intro h
    simp [Schedule.init, h.1, h.2, Schedule._get_or_create_collection]

/-- Witness for C10 at the empty environment and the all-failing world. -/
theorem C10_schedule_init_disconnected_invariants_witness :
    Schedule.init envNone wAllFail = ScheduleState.mk none none DiGraph.empty none none :=
  (C10_schedule_init_disconnected_invariants envNone wAllFail).2.2.2.2.2
    ⟨by decide, by decide⟩

/-- Claim C6 as amended: `_initialize_neo4j` reads
`NEO4J_URI`/`NEO4J_USERNAME`/`NEO4J_PASSWORD` with the fixed defaults and
returns the driver exactly when construction succeeds and the test query
yields `1`, returning `None` on any exception; `_initialize_chromadb`
reads `CHROMADB_HOST`/`CHROMADB_PORT`, falls back to a `PersistentClient`
at `CHROMADB_DATA_PATH` when the HTTP client fails, and returns `None`
exactly when the `CHROMADB_PORT` value fails to parse as an integer
(`int()` raises before either attempt) or both attempts fail. -/
theorem C6_database_client_construction (env : Env) (w : World) :
    (∀ d : Neo4jDriver, Schedule._initialize_neo4j env w = some d ↔
      (w.neo4jDriverOk = true ∧ w.neo4jTest = Except.ok 1 ∧
        d = Neo4jDriver.mk (Env.getD env "NEO4J_URI" "bolt://localhost:7687")
          (Env.getD env "NEO4J_USERNAME" "neo4j")
          (Env.getD env "NEO4J_PASSWORD" "password"))) ∧
    (∀ e : PyErr, w.neo4jTest = Except.error e → Schedule._initialize_neo4j env w = none) ∧
    (Schedule._initialize_chromadb env w = none ↔
      (ExceptOk (pyInt (Env.getD env "CHROMADB_PORT" "8000")) = false ∨
        (w.chromaHttpOk = false ∧ w.chromaPersistentOk = false))) ∧
    (∀ p : Int, pyInt (Env.getD env "CHROMADB_PORT" "8000") = Except.ok p →
      (w.chromaHttpOk = true →
        Schedule._initialize_chromadb env w =
          some (ChromaClient.httpClient (Env.getD env "CHROMADB_HOST" "localhost") p)) ∧
      (w.chromaHttpOk = false → w.chromaPersistentOk = true →
        Schedule._initialize_chromadb env w =
          some (ChromaClient.persistentClient (Env.getD env "CHROMADB_DATA_PATH" "./chroma_data")))) := by
  refine ⟨?_, ?_, ?_, ?_⟩
  · intro d
    cases hdrv : w.neo4jDriverOk with
    | false => simp [Schedule._initialize_neo4j, Bind.bind, Except.bind, Except.instMonad, hdrv]
    | true =>
      cases htest : w.neo4jTest with
      | error e =>
        simp [Schedule._initialize_neo4j, Bind.bind, Except.bind, Except.instMonad, hdrv, htest]
      | ok t =>
        by_cases ht : t = 1
        · subst ht
          simp [Schedule._initialize_neo4j, Bind.bind, Except.bind, Except.instMonad, hdrv, htest]
          exact eq_comm
        · simp [Schedule._initialize_neo4j, Bind.bind, Except.bind, Except.instMonad, hdrv,
            htest, ht]
  · intro e he
    cases hdrv : w.neo4jDriverOk with
    | false => simp [Schedule._initialize_neo4j, Bind.bind, Except.bind, Except.instMonad, hdrv]
    | true => simp [Schedule._initialize_neo4j, Bind.bind, Except.bind, Except.instMonad, hdrv, he]
  · cases hport : pyInt (Env.getD env "CHROMADB_PORT" "8000") with
    | error e =>
      simp [Schedule._initialize_chromadb, Bind.bind, Except.bind, Except.instMonad, hport, ExceptOk]
    | ok p =>
      cases hhttp : w.chromaHttpOk with
      | true =>
        simp [Schedule._initialize_chromadb, Bind.bind, Except.bind, Except.instMonad, hport,
          hhttp, ExceptOk]
      | false =>
        cases hpers : w.chromaPersistentOk with
        | true =>
          simp [Schedule._initialize_chromadb, Bind.bind, Except.bind, Except.instMonad, hport,
            hhttp, hpers, ExceptOk]
        | false =>
          simp [Schedule._initialize_chromadb, Bind.bind, Except.bind, Except.instMonad, hport,
            hhttp, hpers, ExceptOk]
  · intro p hp
    constructor
    · intro hhttp
      simp [Schedule._initialize_chromadb, Bind.bind, Except.bind, Except.instMonad, hp, hhttp]
    · intro hhttp hpers
      simp [Schedule._initialize_chromadb, Bind.bind, Except.bind, Except.instMonad, hp, hhttp,
        hpers]

/-- Counterexample to claim C6 as stated: with `CHROMADB_PORT` set to a
non-integer value, `_initialize_chromadb` returns `None` even though both
connection attempts would succeed, because `int()` raises before either
attempt is made. -/
theorem C6_counterexample_invalid_port :
    Schedule._initialize_chromadb envBadPort wChromaUp = none ∧
    wChromaUp.chromaHttpOk = true ∧ wChromaUp.chromaPersistentOk = true := by
  decide

/-- Witness for C6 at the empty environment and a world in which the HTTP
attempt fails and the persistent fallback succeeds. -/
theorem C6_database_client_construction_witness :
    Schedule._initialize_chromadb envDefaults wChromaFallback =
      some (ChromaClient.persistentClient
        (Env.getD envDefaults "CHROMADB_DATA_PATH" "./chroma_data")) :=
  ((C6_database_client_construction envDefaults wChromaFallback).2.2.2 8000 (by decide)).2
    rfl rfl

/-- When no probe raises, the polling loop returns `ready` at the first
probe point reporting a healthy container, and `timedOut` when no probe
point does. -/
theorem pollFrom_find_characterisation (w : DockerWorld)
    (hok : ∀ e, ExceptOk (w.healthChecks e) = true) :
    ∀ pts : List Nat, pollFrom w pts =
      Except.ok (match pts.find? (healthyAtB w) with
        | some e => LoopExit.ready e
        | none => LoopExit.timedOut) := by
  intro pts
  induction pts with
  | nil => rfl
  | cons e rest ih =>
    cases hhc : w.healthChecks e with
    | error err =>
      have h := hok e
      rw [hhc] at h
      simp [ExceptOk] at h
    | ok hc =>
      by_cases hcond : hc.1 = 0 ∧ pyStrip hc.2 = "healthy"
      · have hfind : healthyAtB w e = true := by
          simp [healthyAtB, hhc, hcond.1, hcond.2]
        simp [pollFrom, hhc, hcond, List.find?_cons_of_pos _ hfind]
      · have hfind : ¬ (healthyAtB w e = true) := by
          simp [healthyAtB, hhc]
          intro h0 hstrip
          exact hcond ⟨h0, hstrip⟩
        simp [pollFrom, hhc, hcond, List.find?_cons_of_neg _ hfind, ih]

/-- Claim C7 as amended: when docker-compose is available and some
required service is not running, `check_docker_containers` starts exactly
the missing services and then polls container health at the `elapsed`
values 15, 20, ..., 60 (5-second intervals after the initial 10-second
wait, capped at 60), returning `True` at the first healthy probe and
still returning `True` with a warning when the cap elapses; it returns
`False` exactly when docker-compose is missing, the startup command
fails, or an exception reaches the outer catch-all handler.  When all
required services are already running it returns `True` directly. -/
theorem C7_docker_bootstrap_behaviour :
    (∀ w : DockerWorld, check_docker_containers w = false ↔
      ((checkDockerOutcome w).isComposeMissing = true ∨
       (checkDockerOutcome w).isStartFailed = true ∨
       checkDockerOutcome w = DockerOutcome.exceptionCaught)) ∧
    (pollSchedule = [ 15, 20, 25, 30, 35, 40, 45, 50, 55, 60]) ∧
    (∀ (w : DockerWorld) (ps : Int × String),
      w.composeVersion = Except.ok 0 →
      w.psOut = Except.ok ps →
      servicesToStart (runningServicesOf ps.2) ≠ [] →
      w.upResult = Except.ok 0 →
      (∀ e, ExceptOk (w.healthChecks e) = true) →
      checkDockerOutcome w =
        (match pollSchedule.find? (healthyAtB w) with
         | some e => DockerOutcome.ready (servicesToStart (runningServicesOf ps.2)) e
         | none => DockerOutcome.timedOut (servicesToStart (runningServicesOf ps.2))) ∧
      check_docker_containers w = true) ∧
    (∀ (w : DockerWorld) (ps : Int × String),
      w.composeVersion = Except.ok 0 →
      w.psOut = Except.ok ps →
      servicesToStart (runningServicesOf ps.2) = [] →
      checkDockerOutcome w = DockerOutcome.alreadyRunning ∧
      check_docker_containers w = true) := by
  refine ⟨?_, by decide, ?_, ?_⟩
  · intro w
    cases h : checkDockerOutcome w <;>
      simp [check_docker_containers, h, DockerOutcome.isComposeMissing,
        DockerOutcome.isStartFailed]
  · intro w ps h1 h2 h3 h4 h5
    have houtcome : checkDockerOutcome w =
        (match pollSchedule.find? (healthyAtB w) with
         | some e => DockerOutcome.ready (servicesToStart (runningServicesOf ps.2)) e
         | none => DockerOutcome.timedOut (servicesToStart (runningServicesOf ps.2))) := by
      rw [checkDockerOutcome, checkDockerBody]
      simp [Bind.bind, Except.bind, Except.instMonad, h1, h2, h3, h4, pollLoop,
        pollFrom_find_characterisation w h5]
      cases pollSchedule.find? (healthyAtB w) <;> rfl
    refine ⟨houtcome, ?_⟩
    rw [check_docker_containers, houtcome]
    cases pollSchedule.find? (healthyAtB w) <;> rfl
  · intro w ps h1 h2 h3
    have houtcome : checkDockerOutcome w = DockerOutcome.alreadyRunning := by
      rw [checkDockerOutcome, checkDockerBody]
      simp [Bind.bind, Except.bind, Except.instMonad, h1, h2, h3]
    exact ⟨houtcome, by rw [check_docker_containers, houtcome]⟩

/-- Counterexample to claim C7 as stated: when `docker inspect` raises on
every probe, `check_docker_containers` returns `False` even though
docker-compose is present and the startup command succeeded — a third
`False` path the claim omits. -/
theorem C7_counterexample_exception_path :
    check_docker_containers wDockerInspectRaises = false ∧
    wDockerInspectRaises.composeVersion = Except.ok 0 ∧
    wDockerInspectRaises.upResult = Except.ok 0 ∧
    (checkDockerOutcome wDockerInspectRaises).isComposeMissing = false ∧
    (checkDockerOutcome wDockerInspectRaises).isStartFailed = false := by
  decide

/-- Witness for C7 at a concrete oracle with no service running and the
first healthy probe at `elapsed = 20`. -/
theorem C7_docker_bootstrap_behaviour_witness :
    checkDockerOutcome wDockerHealthyAt20 =
      DockerOutcome.ready [ "neo4j", "chromadb"] 20 ∧
    check_docker_containers wDockerHealthyAt20 = true :=
  C7_docker_bootstrap_behaviour.2.2.1 wDockerHealthyAt20 (0, "") rfl rfl (by decide) rfl
    (fun e => rfl)
